import Mathlib

/-!
Verification of the code-review assistant `app.py` (Streamlit single-file app).

The Python source is shallowly embedded: pure string-processing functions are
translated directly; every external effect (the generative-language model, HTTP
GET, subprocess invocation, radon's `cc_visit`) is an explicit oracle parameter,
and functions additionally return a count or trace of the external calls they
made, so that "makes no network call" is expressible as the count being zero.
Python's `re.search` is embedded by a small regular-expression engine
(Brzozowski derivatives) over the exact patterns appearing in the source.
-/

/-! ### A tiny regex engine embedding Python `re.search`

Constructors cover exactly what the source's patterns need: character classes
(literal characters, case-insensitive literals via `Char.toLower`, `.` which
matches anything but a newline, `[^?]`, `\s`), concatenation, alternation and
Kleene star.  `re.search pat s` succeeds iff some substring of `s` matches, i.e.
iff `s` fully matches `any* · pat · any*`. -/

inductive RE where
  | fail
  | eps
  | cls (f : Char → Bool)
  | cat (a b : RE)
  | alt (a b : RE)
  | star (a : RE)

/-- `r.nullable` is true iff `r` accepts the empty string. -/
def RE.nullable : RE → Bool
  | .fail => false
  | .eps => true
  | .cls _ => false
  | .cat a b => a.nullable && b.nullable
  | .alt a b => a.nullable || b.nullable
  | .star _ => true

/-- Smart concatenation (simplifies `fail` and `eps`). -/
def RE.catS : RE → RE → RE
  | .fail, _ => .fail
  | .eps, b => b
  | a, b => .cat a b

/-- Smart alternation (simplifies `fail`). -/
def RE.altS : RE → RE → RE
  | .fail, b => b
  | a, b => .alt a b

/-- Brzozowski derivative of `r` by the character `c`. -/
def RE.deriv : RE → Char → RE
  | .fail, _ => .fail
  | .eps, _ => .fail
  | .cls f, c => if f c then .eps else .fail
  | .cat a b, c =>
      if a.nullable then .altS (.catS (a.deriv c) b) (b.deriv c)
      else .catS (a.deriv c) b
  | .alt a b, c => .altS (a.deriv c) (b.deriv c)
  | .star a, c => .catS (a.deriv c) (.star a)

/-- Full-match of a regex against a character list, by iterated derivatives. -/
def RE.matchList : RE → List Char → Bool
  | r, [] => r.nullable
  | r, c :: cs => (r.deriv c).matchList cs

/-- Literal string (case-sensitive), e.g. the `for ` in the performance regex. -/
def RE.lit (s : String) : RE :=
  s.data.foldr (fun c r => RE.cat (.cls fun d => d == c) r) .eps

/-- Literal string under Python's `(?i)` flag: each (ASCII) pattern character,
stored lowercase, matches an input character with the same `Char.toLower`. -/
def RE.litI (s : String) : RE :=
  s.data.foldr (fun c r => RE.cat (.cls fun d => d.toLower == c.toLower) r) .eps

/-- Any character at all (used to wrap a pattern for `re.search`). -/
def anyChar : RE := .cls fun _ => true

/-- Python `.` (default flags): any character except a newline. -/
def dotChar : RE := .cls fun c => c != '\n'

/-- Python `[^?]`: any character except a question mark. -/
def notQmark : RE := .cls fun c => c != '?'

/-- Python `\s` on the ASCII range: space, tab, newline, CR, VT, FF. -/
def spaceChar : RE :=
  .cls fun c => c == ' ' || c == '\t' || c == '\n' || c == '\r' || c == '\x0b' || c == '\x0c'

/-- Embedding of `re.search(pat, s)`: some substring of `s` matches `pat`,
i.e. `s` as a whole matches `any* · pat · any*`. -/
def reSearch (pat : RE) (s : String) : Bool :=
  RE.matchList (.cat (.star anyChar) (.cat pat (.star anyChar))) s.data

/-! ### The source's regex patterns (app.py lines 63, 65, 67, 82, 84) -/

/-- `(?i)apikey|password|secret|token` (app.py line 63). -/
def hardcodedRE : RE :=
  .alt (.litI "apikey") (.alt (.litI "password") (.alt (.litI "secret") (.litI "token")))

/-- `(?i)(SELECT .* FROM .* WHERE .*=[^?])` (app.py line 65). -/
def sqlInjectionRE : RE :=
  .cat (.litI "SELECT ") (.cat (.star dotChar)
    (.cat (.litI " FROM ") (.cat (.star dotChar)
      (.cat (.litI " WHERE ") (.cat (.star dotChar)
        (.cat (.litI "=") notQmark))))))

/-- `(?i)(<script>.*</script>)` (app.py line 67). -/
def xssRE : RE :=
  .cat (.litI "<script>") (.cat (.star dotChar) (.litI "</script>"))

/-- `for .* in range\(.*\):\n\s+for .* in range\(.*\):` (app.py line 82). -/
def nestedLoopRE : RE :=
  .cat (.lit "for ") (.cat (.star dotChar)
    (.cat (.lit " in range(") (.cat (.star dotChar)
      (.cat (.lit "):") (.cat (.lit "\n")
        (.cat spaceChar (.cat (.star spaceChar)
          (.cat (.lit "for ") (.cat (.star dotChar)
            (.cat (.lit " in range(") (.cat (.star dotChar) (.lit "):"))))))))))))

/-- `\[.*\] for .* in .*` (app.py line 84). -/
def comprehensionRE : RE :=
  .cat (.lit "[") (.cat (.star dotChar)
    (.cat (.lit "] for ") (.cat (.star dotChar)
      (.cat (.lit " in ") (.star dotChar)))))

/-! ### The two pure scanners (app.py lines 61-69 and 80-86) -/

/-- `detect_security_issues` (app.py lines 61-69): three `re.search` checks in
order, findings joined by newlines, fixed fallback string. -/
def detect_security_issues (code : String) : String :=
  let issues : List String :=
    (if reSearch hardcodedRE code then ["Possible hardcoded API key or password detected."] else []) ++
    (if reSearch sqlInjectionRE code then ["Potential SQL Injection risk detected."] else []) ++
    (if reSearch xssRE code then ["Possible XSS vulnerability detected."] else [])
  if issues = [] then "No security issues detected." else String.intercalate "\n" issues

/-- `optimize_performance` (app.py lines 80-86): two `re.search` checks in
order, suggestions joined by newlines, fixed fallback string. -/
def optimize_performance (code : String) : String :=
  let suggestions : List String :=
    (if reSearch nestedLoopRE code then ["Nested loops detected. Consider optimizing with vectorization or caching."] else []) ++
    (if reSearch comprehensionRE code then ["List comprehension detected. Ensure it doesn\x27t cause excessive memory usage."] else [])
  if suggestions = [] then "No performance issues detected." else String.intercalate "\n" suggestions

/-! ### String helpers modelling the Python string methods used by the source -/

/-- `isPrefixList p s` is true iff the character list `p` is a prefix of `s`. -/
def isPrefixList : List Char → List Char → Bool
  | [], _ => true
  | _ :: _, [] => false
  | p :: ps, c :: cs => p == c && isPrefixList ps cs

/-- Python `s.startswith(pre)`. -/
def pyStartsWith (s pre : String) : Bool :=
  isPrefixList pre.data s.data

/-- Worker for `pyReplace`: replaces every non-overlapping occurrence of `pat`
(scanning left to right) by `rep`, exactly as Python `str.replace` does for a
non-empty pattern.  The fuel argument, initialised to the length of the list,
only serves structural termination and is never exhausted. -/
def replaceFuel (pat rep : List Char) : Nat → List Char → List Char
  | _, [] => []
  | 0, l => l
  | fuel + 1, c :: cs =>
      if isPrefixList pat (c :: cs) && !pat.isEmpty then
        rep ++ replaceFuel pat rep fuel (List.drop (pat.length - 1) cs)
      else
        c :: replaceFuel pat rep fuel cs

/-- Python `s.replace(pat, rep)` for a non-empty pattern. -/
def pyReplace (s pat rep : String) : String :=
  ⟨replaceFuel pat.data rep.data s.data.length s.data⟩

/-- Python's ASCII whitespace characters (the ones `str.strip()` removes,
restricted to the ASCII range, which is all the source's inputs exercise). -/
def pyIsSpace (c : Char) : Bool :=
  c == ' ' || c == '\t' || c == '\n' || c == '\r' || c == '\x0b' || c == '\x0c'

/-- Python `s.strip()` (ASCII whitespace). -/
def pyStrip (s : String) : String :=
  ⟨((s.data.dropWhile pyIsSpace).reverse.dropWhile pyIsSpace).reverse⟩

/-! ### External effects as oracles

`GOOGLE_API_KEY` is `os.getenv` output: `none` when the variable is absent.
Python truthiness `not GOOGLE_API_KEY` also treats the empty string as missing. -/

/-- Python `not GOOGLE_API_KEY` where the key came from `os.getenv`:
true when the environment variable is absent or the empty string. -/
def keyFalsy : Option String → Bool
  | none => true
  | some s => s == ""

/-- Outcome of `subprocess.run([...], capture_output=True, text=True)`:
either it ran and produced stdout, or the binary was absent
(`FileNotFoundError`). -/
inductive SubprocResult where
  | ok (stdout : String)
  | notFound
deriving DecidableEq

/-- The ambient effects of the script, as oracles: the environment credential,
the generative model (`model.generate_content`, `none` for a falsy response),
HTTP GET (`requests.get`, returning status code and body text), `subprocess.run`
(keyed by the argument list), and radon's `cc_visit` (returning the list of the
blocks\x27 integer complexity scores, or the message of a raised exception). -/
structure Env where
  key : Option String
  model : String → Option String
  get : String → Nat × String
  runProc : List String → SubprocResult
  cc_visit : String → Except String (List Int)

/-! ### The AI calls (app.py lines 20-28 and 51-59)

Each returns its text together with the number of `generate_content` calls
made, so "no network call" is the count being zero. -/

/-- `analyze_code` (app.py lines 20-28). -/
def analyze_code (key : Option String) (model : String → Option String)
    (code : String) : String × Nat :=
  if keyFalsy key then
    ("Error: API key not found. Please check .env file.", 0)
  else
    match model ("Review this code and suggest improvements:\n\n" ++ code ++
        "\n\nProvide suggestions followed by an improved version of the code.") with
    | some t => (t, 1)
    | none => ("Error fetching response.", 1)

/-- `generate_unit_tests` (app.py lines 51-59). -/
def generate_unit_tests (key : Option String) (model : String → Option String)
    (code : String) : String × Nat :=
  if keyFalsy key then
    ("Error: API key missing!", 0)
  else
    match model ("Generate unit tests for this code:\n\n" ++ code ++
        "\n\nUse standard unit testing framework.") with
    | some t => (t, 1)
    | none => ("Error fetching response.", 1)

/-! ### Linter and coverage subprocess wrappers (app.py lines 30-41, 71-78) -/

/-- `run_linter` (app.py lines 30-41).  The second component counts subprocess
invocations; `FileNotFoundError` maps to the fixed message. -/
def run_linter (run : List String → SubprocResult)
    (file_path language : String) : String × Nat :=
  if language == "py" then
    match run ["pylint", file_path] with
    | .ok stdout => (stdout, 1)
    | .notFound => ("Linter Error: Linter tool not found. Please install the necessary linter.", 1)
  else if language == "js" then
    match run ["eslint", file_path] with
    | .ok stdout => (stdout, 1)
    | .notFound => ("Linter Error: Linter tool not found. Please install the necessary linter.", 1)
  else
    ("Linting not supported for this language.", 0)

/-- `check_test_coverage` (app.py lines 71-78). -/
def check_test_coverage (run : List String → SubprocResult) : String :=
  match run ["pytest", "--cov"] with
  | .ok stdout =>
      if pyStrip stdout == "" then "No test coverage data found. Ensure you have tests."
      else stdout
  | .notFound => "Pytest or coverage tool not found. Please install pytest-cov."

/-! ### Complexity scoring and its rendering (app.py lines 43-49 and 116) -/

/-- `calculate_complexity` (app.py lines 43-49): on success the mean of the
blocks\x27 scores (Python float division, embedded as an exact rational), `0`
for an empty block list; a raised exception is caught and its description
returned as the result text (`.inl`). -/
def calculate_complexity (cc_visit : String → Except String (List Int))
    (code : String) : String ⊕ ℚ :=
  match cc_visit code with
  | .error e => .inl e
  | .ok complexity_scores =>
      if complexity_scores ≠ [] then
        .inr ((complexity_scores.sum : ℚ) / (complexity_scores.length : ℚ))
      else .inr (0 : ℚ)

/-- Fixed-point rendering of a rational with two decimals, as CPython's
`format(x, ".2f")` produces for the exact non-tie values arising here
(rounding is half-up on the exact rational; CPython rounds the nearest binary
double half-to-even, which agrees on every value this development evaluates). -/
def fmt2 (q : ℚ) : String :=
  let n : ℤ := Int.fdiv (200 * q.num + (q.den : ℤ)) (2 * (q.den : ℤ))
  let sign := if n < 0 then "-" else ""
  let m := n.natAbs
  let r := m % 100
  sign ++ toString (m / 100) ++ "." ++ (if r < 10 then "0" else "") ++ toString r

/-- The f-string interpolation `{calculate_complexity(code):.2f}` (app.py line
116), following CPython's `format` semantics: a number is rendered with two
decimals, but applying the float format code to a `str` raises
`ValueError: Unknown format code 'f' for object of type 'str'`. -/
def renderComplexity : String ⊕ ℚ → Except String String
  | .inl _ => .error "ValueError: Unknown format code f for object of type str"
  | .inr q => .ok (fmt2 q)

/-! ### GitHub fetch and the input resolver (app.py lines 88-99) -/

/-- `fetch_github_code` (app.py lines 88-93).  The second component is the list
of URLs actually fetched over the network (empty on the early-return path). -/
def fetch_github_code (get : String → Nat × String) (url : String) :
    String × List String :=
  if pyStartsWith url "https://github.com/" then
    let raw_url := pyReplace (pyReplace url "github.com" "raw.githubusercontent.com") "/blob" ""
    let response := get raw_url
    (if response.1 == 200 then response.2 else "Error fetching code.", [raw_url])
  else
    ("Invalid GitHub URL.", [])

/-- The resolver expression assigned to `code_to_analyze` (app.py line 99):
uploaded file (already UTF-8-decoded) if present, else the GitHub fetch if the
URL field is non-empty, else the pasted text stripped.  The second component is
the list of URLs fetched. -/
def code_to_analyze (get : String → Nat × String) (uploaded_file : Option String)
    (github_url code_input : String) : String × List String :=
  match uploaded_file with
  | some content => (content, [])
  | none =>
      if github_url ≠ "" then fetch_github_code get github_url
      else (pyStrip code_input, [])

/-! ### The page render (app.py lines 101-127) -/

/-- One rendered section of the results page, in source order. -/
inductive Sec where
  | analysis (s : String)
  | linter (s : String)
  | security (s : String)
  | complexity (s : String)
  | coverage (s : String)
  | performance (s : String)
  | integration
  | warning (s : String)
deriving DecidableEq

/-- The main page flow (app.py lines 101-127): resolve the input; on non-empty
code render each analysis section in order, else render the single warning.
The code is written to a temporary file (`temp_path`, chosen by the OS) and the
linter is always invoked with the language tag `"py"` (line 109).  The second
component records an uncaught exception: the `:.2f` interpolation at line 116
raises when `calculate_complexity` returned a string, aborting the render after
the first three sections. -/
def render_page (env : Env) (uploaded_file : Option String)
    (github_url code_input temp_path : String) : List Sec × Option String :=
  let code := (code_to_analyze env.get uploaded_file github_url code_input).1
  if code ≠ "" then
    let pre := [Sec.analysis (analyze_code env.key env.model code).1,
                Sec.linter (run_linter env.runProc temp_path "py").1,
                Sec.security (detect_security_issues code)]
    match renderComplexity (calculate_complexity env.cc_visit code) with
    | .error e => (pre, some e)
    | .ok cstr =>
        (pre ++ [Sec.complexity ("Cyclomatic Complexity: " ++ cstr),
                 Sec.coverage (check_test_coverage env.runProc),
                 Sec.performance (optimize_performance code),
                 Sec.integration], none)
  else
    ([Sec.warning "Please upload a file, enter a GitHub URL, or paste your code."], none)

/-! ### Concrete oracle environments used by the witnesses -/

/-- Oracle environment of a bare machine: no credential, a falsy model
response, every HTTP GET answering 404, every binary absent, radon returning
no blocks. -/
def env0 : Env := ⟨none, fun _ => none, fun _ => (404, ""), fun _ => .notFound, fun _ => .ok []⟩

/-- Oracle environment where everything is available, used to show results do
not depend on the oracles when no component may run. -/
def envAlt : Env := ⟨some "k", fun _ => some "model output", fun _ => (200, "body"), fun _ => .ok "out", fun _ => .ok [3]⟩

/-- Oracle environment where radon reports a single block of complexity 1, as
it does on `def f(x):\n  return x` (one straight-line function). -/
def env9 : Env := { env0 with cc_visit := fun _ => .ok [1] }

/-- Oracle environment where radon raises a parse error. -/
def envParse : Env := { env0 with cc_visit := fun _ => .error "invalid syntax (unknown, line 1)" }

/-! ### Helper lemmas -/

/-- A URL that starts with the GitHub prefix is non-empty. -/
lemma startsWith_github_nonempty (url : String)
    (h : pyStartsWith url "https://github.com/" = true) : url ≠ "" := by
  intro he
  subst he
  exact absurd h (by decide)

/-! ### The claims -/

/-- C1: the input resolver prioritises upload > GitHub URL > pasted text.
When an uploaded file is present, its decoded content is the resolved code and
no URL is fetched, whatever the other fields hold; when no upload is present
and the URL field is non-empty, the resolver's result is exactly the GitHub
fetch result; and when all three sources are empty (no upload, empty URL,
pasted text stripping to empty) the page consists of the single
please-provide-input warning, independently of every oracle, so no analysis
component is invoked. -/
theorem c1_input_priority (env env2 : Env) :
    (∀ content url text, code_to_analyze env.get (some content) url text = (content, [])) ∧
    (∀ url text, url ≠ "" → code_to_analyze env.get none url text = fetch_github_code env.get url) ∧
    (∀ text tp tp2, pyStrip text = "" →
      render_page env none "" text tp =
        ([Sec.warning "Please upload a file, enter a GitHub URL, or paste your code."], none) ∧
      render_page env none "" text tp = render_page env2 none "" text tp2) := by
  refine ⟨fun c url text => rfl, fun url text h => by simp [code_to_analyze, h], ?_⟩
  intro text tp tp2 h
  have h0 : ∀ e : Env, (code_to_analyze e.get none "" text).1 = "" := by
    intro e
    simp [code_to_analyze, h]
  constructor
  · simp [render_page, h0 env]
  · simp [render_page, h0 env, h0 env2]

/-- Witness for C1 at concrete inputs. -/
theorem c1_input_priority_w :
    code_to_analyze env0.get (some "print(1)") "https://github.com/u/r" "pasted" = ("print(1)", []) ∧
    code_to_analyze env0.get none "https://github.com/u/r" "pasted" =
      fetch_github_code env0.get "https://github.com/u/r" ∧
    render_page env0 none "" "  " "/tmp/a.py" =
      ([Sec.warning "Please upload a file, enter a GitHub URL, or paste your code."], none) := by
  obtain ⟨h1, h2, h3⟩ := c1_input_priority env0 envAlt
  exact ⟨h1 "print(1)" "https://github.com/u/r" "pasted",
         h2 "https://github.com/u/r" "pasted" (by decide),
         (h3 "  " "/tmp/a.py" "/tmp/b.py" (by decide)).1⟩

/-- C2: when the credential is falsy (absent or empty), `analyze_code` and
`generate_unit_tests` return their fixed error strings with a model-call count
of zero — the credential check precedes any call to the generative model, and
the result does not depend on the model oracle at all. -/
theorem c2_missing_key_no_calls (key : Option String) (model : String → Option String)
    (code : String) (h : keyFalsy key = true) :
    analyze_code key model code = ("Error: API key not found. Please check .env file.", 0) ∧
    generate_unit_tests key model code = ("Error: API key missing!", 0) := by
  simp [analyze_code, generate_unit_tests, h]

/-- Witness for C2 at an absent key and a model oracle that would answer. -/
theorem c2_missing_key_no_calls_w :
    analyze_code none (fun _ => some "model output") "def f(x):\n  return x" =
      ("Error: API key not found. Please check .env file.", 0) ∧
    generate_unit_tests none (fun _ => some "model output") "def f(x):\n  return x" =
      ("Error: API key missing!", 0) :=
  c2_missing_key_no_calls none (fun _ => some "model output") "def f(x):\n  return x" (by decide)

/-- C3: the three spec test cases of the security scanner.  The input
`password = "x"` yields exactly the hardcoded-credential finding; the
parameterized query `SELECT * FROM t WHERE id=?` yields no finding at all (in
particular no SQL-injection finding); the literal query
`SELECT * FROM t WHERE id=5` yields exactly the one SQL-injection finding. -/
theorem c3_security_scanner_cases :
    detect_security_issues "password = \"x\"" = "Possible hardcoded API key or password detected." ∧
    detect_security_issues "SELECT * FROM t WHERE id=?" = "No security issues detected." ∧
    detect_security_issues "SELECT * FROM t WHERE id=5" = "Potential SQL Injection risk detected." := by
  refine ⟨by decide, by decide, by decide⟩

/-- C4: for every URL accepted by the GitHub branch, the single network fetch
targets exactly the fixed string substitution of the URL
(`github.com` to `raw.githubusercontent.com`, `/blob` removed); on the spec's
example `https://github.com/u/r/blob/main/f.py` the fetched URL is
`https://raw.githubusercontent.com/u/r/main/f.py`, whatever the HTTP oracle. -/
theorem c4_github_url_rewrite (get : String → Nat × String) :
    (fetch_github_code get "https://github.com/u/r/blob/main/f.py").2 =
      ["https://raw.githubusercontent.com/u/r/main/f.py"] ∧
    ∀ url, pyStartsWith url "https://github.com/" = true →
      (fetch_github_code get url).2 =
        [pyReplace (pyReplace url "github.com" "raw.githubusercontent.com") "/blob" ""] := by
  constructor
  · have hs : pyStartsWith "https://github.com/u/r/blob/main/f.py" "https://github.com/" = true := by decide
    have hr : pyReplace (pyReplace "https://github.com/u/r/blob/main/f.py" "github.com"
        "raw.githubusercontent.com") "/blob" "" = "https://raw.githubusercontent.com/u/r/main/f.py" := by decide
    simp [fetch_github_code, hs, hr]
  · intro url h
    simp [fetch_github_code, h]

/-- Witness for C4 at a concrete HTTP oracle and URLs. -/
theorem c4_github_url_rewrite_w :
    (fetch_github_code env0.get "https://github.com/u/r/blob/main/f.py").2 =
      ["https://raw.githubusercontent.com/u/r/main/f.py"] ∧
    (fetch_github_code env0.get "https://github.com/a/blob/b").2 =
      [pyReplace (pyReplace "https://github.com/a/blob/b" "github.com"
        "raw.githubusercontent.com") "/blob" ""] :=
  ⟨(c4_github_url_rewrite env0.get).1,
   (c4_github_url_rewrite env0.get).2 "https://github.com/a/blob/b" (by decide)⟩

/-- C5 (bug witness): when radon raises a parse error, `calculate_complexity`
does catch it and return the failure description as result text, but the
caller then formats that string with the float format code `:.2f` (app.py line
116), which raises `ValueError`, aborting the page render after the first
three sections — contradicting the claim that no error is ever propagated as a
hard failure of the page. -/
theorem c5_complexity_format_raises :
    calculate_complexity envParse.cc_visit "def f(:" =
      Sum.inl "invalid syntax (unknown, line 1)" ∧
    (render_page envParse none "" "def f(:" "/tmp/x.py").2 =
      some "ValueError: Unknown format code f for object of type str" := by
  exact ⟨by decide, by decide⟩

/-- C6: on a successful parse, `calculate_complexity` returns exactly `0` when
the block list is empty, and the arithmetic mean (sum over length, as an exact
rational) of the blocks\x27 integer complexity scores otherwise. -/
theorem c6_complexity_mean (cc : String → Except String (List Int)) (code : String)
    (scores : List Int) (h : cc code = Except.ok scores) :
    (scores = [] → calculate_complexity cc code = Sum.inr 0) ∧
    (scores ≠ [] → calculate_complexity cc code =
      Sum.inr ((scores.sum : ℚ) / (scores.length : ℚ))) := by
  constructor <;> intro h2 <;> simp [calculate_complexity, h, h2]

/-- Witness for C6 on the block lists `[2, 3]` and `[]`. -/
theorem c6_complexity_mean_w :
    calculate_complexity (fun _ => Except.ok [2, 3]) "x" =
      Sum.inr ((([2, 3] : List Int).sum : ℚ) / (([2, 3] : List Int).length : ℚ)) ∧
    calculate_complexity (fun _ => Except.ok []) "x" = Sum.inr 0 :=
  ⟨(c6_complexity_mean (fun _ => Except.ok [2, 3]) "x" [2, 3] rfl).2 (by decide),
   (c6_complexity_mean (fun _ => Except.ok []) "x" [] rfl).1 rfl⟩

/-- C7: when the fetch of a GitHub URL does not return status 200, the
resolver's code is the literal string `Error fetching code.` (with the one
rewritten URL fetched), and the page then renders exactly as it would had that
string been the uploaded source — every analysis component runs on it. -/
theorem c7_fetch_failure_analyzed (env : Env) (url text tp : String)
    (hs : pyStartsWith url "https://github.com/" = true)
    (hf : (env.get (pyReplace (pyReplace url "github.com" "raw.githubusercontent.com") "/blob" "")).1 ≠ 200) :
    code_to_analyze env.get none url text =
      ("Error fetching code.",
        [pyReplace (pyReplace url "github.com" "raw.githubusercontent.com") "/blob" ""]) ∧
    render_page env none url text tp = render_page env (some "Error fetching code.") "" "" tp := by
  have hne : url ≠ "" := startsWith_github_nonempty url hs
  have hres : code_to_analyze env.get none url text =
      ("Error fetching code.",
        [pyReplace (pyReplace url "github.com" "raw.githubusercontent.com") "/blob" ""]) := by
    simp [code_to_analyze, hne, fetch_github_code, hs, hf]
  refine ⟨hres, ?_⟩
  have hL : (code_to_analyze env.get none url text).1 = "Error fetching code." := by rw [hres]
  have hR : (code_to_analyze env.get (some "Error fetching code.") "" "").1 = "Error fetching code." := rfl
  simp only [render_page, hL, hR]

/-- Witness for C7 with an HTTP oracle answering 404. -/
theorem c7_fetch_failure_analyzed_w :
    code_to_analyze env0.get none "https://github.com/u/r/blob/main/f.py" "" =
      ("Error fetching code.", ["https://raw.githubusercontent.com/u/r/main/f.py"]) ∧
    render_page env0 none "https://github.com/u/r/blob/main/f.py" "" "/tmp/a.py" =
      render_page env0 (some "Error fetching code.") "" "" "/tmp/a.py" := by
  have h := c7_fetch_failure_analyzed env0 "https://github.com/u/r/blob/main/f.py" "" "/tmp/a.py"
    (by decide) (by decide)
  exact ⟨by rw [h.1]; decide, h.2⟩

/-- C8: `run_linter` answers the fixed not-supported string with zero
subprocess invocations for every language tag other than `py` and `js`, and
when the matching linter binary is absent (`FileNotFoundError`) it returns the
fixed tool-not-found message instead of propagating the failure. -/
theorem c8_linter_dispatch (run : List String → SubprocResult) (file_path : String) :
    (∀ language, language ≠ "py" → language ≠ "js" →
      run_linter run file_path language = ("Linting not supported for this language.", 0)) ∧
    (run ["pylint", file_path] = SubprocResult.notFound →
      run_linter run file_path "py" =
        ("Linter Error: Linter tool not found. Please install the necessary linter.", 1)) ∧
    (run ["eslint", file_path] = SubprocResult.notFound →
      run_linter run file_path "js" =
        ("Linter Error: Linter tool not found. Please install the necessary linter.", 1)) := by
  refine ⟨fun language h1 h2 => by simp [run_linter, h1, h2], fun h => by simp [run_linter, h],
    fun h => by simp [run_linter, h]⟩

/-- Witness for C8 at the tag `java` and a machine with no linter binaries. -/
theorem c8_linter_dispatch_w :
    run_linter (fun _ => SubprocResult.notFound) "/tmp/a.py" "java" =
      ("Linting not supported for this language.", 0) ∧
    run_linter (fun _ => SubprocResult.notFound) "/tmp/a.py" "py" =
      ("Linter Error: Linter tool not found. Please install the necessary linter.", 1) ∧
    run_linter (fun _ => SubprocResult.notFound) "/tmp/a.py" "js" =
      ("Linter Error: Linter tool not found. Please install the necessary linter.", 1) :=
  ⟨(c8_linter_dispatch (fun _ => SubprocResult.notFound) "/tmp/a.py").1 "java"
      (by decide) (by decide),
   (c8_linter_dispatch (fun _ => SubprocResult.notFound) "/tmp/a.py").2.1 rfl,
   (c8_linter_dispatch (fun _ => SubprocResult.notFound) "/tmp/a.py").2.2 rfl⟩

/-- C9: end-to-end, for the pasted input `def f(x):\n  return x` with the
credential absent and radon reporting the single block of complexity 1 this
source has, the page renders the fixed missing-credential error as the AI
review, the fixed no-issues strings from both scanners, and the complexity
`1.00` — a small positive number with two decimals. -/
theorem c9_end_to_end (env : Env) (temp_path : String)
    (hkey : keyFalsy env.key = true)
    (hcc : env.cc_visit "def f(x):\n  return x" = Except.ok [1]) :
    render_page env none "" "def f(x):\n  return x" temp_path =
      ([Sec.analysis "Error: API key not found. Please check .env file.",
        Sec.linter (run_linter env.runProc temp_path "py").1,
        Sec.security "No security issues detected.",
        Sec.complexity "Cyclomatic Complexity: 1.00",
        Sec.coverage (check_test_coverage env.runProc),
        Sec.performance "No performance issues detected.",
        Sec.integration], none) := by
  have h0 : (code_to_analyze env.get none "" "def f(x):\n  return x").1 =
      "def f(x):\n  return x" := by
    simp only [code_to_analyze]
    norm_num
    decide
  have h1 : calculate_complexity env.cc_visit "def f(x):\n  return x" = Sum.inr 1 := by
    simp only [calculate_complexity, hcc]
    norm_num
  have ha : analyze_code env.key env.model "def f(x):\n  return x" =
      ("Error: API key not found. Please check .env file.", 0) := by
    simp [analyze_code, hkey]
  have hsec : detect_security_issues "def f(x):\n  return x" = "No security issues detected." := by decide
  have hperf : optimize_performance "def f(x):\n  return x" = "No performance issues detected." := by decide
  have hfmt : fmt2 1 = "1.00" := by decide
  simp only [render_page, h0, h1, ha, renderComplexity, hfmt, hsec, hperf]
  simp

/-- Witness for C9 at the concrete oracle environment `env9`. -/
theorem c9_end_to_end_w :
    render_page env9 none "" "def f(x):\n  return x" "/tmp/x.py" =
      ([Sec.analysis "Error: API key not found. Please check .env file.",
        Sec.linter (run_linter env9.runProc "/tmp/x.py" "py").1,
        Sec.security "No security issues detected.",
        Sec.complexity "Cyclomatic Complexity: 1.00",
        Sec.coverage (check_test_coverage env9.runProc),
        Sec.performance "No performance issues detected.",
        Sec.integration], none) :=
  c9_end_to_end env9 "/tmp/x.py" (by decide) rfl

/-- C10: for every non-empty URL that does not start with
`https://github.com/` (and no uploaded file), `fetch_github_code` answers the
literal string `Invalid GitHub URL.` with an empty fetch trace — no network
request — and the page renders exactly as if that string were the uploaded
source, so every analysis component runs on it. -/
theorem c10_invalid_url_no_fetch (env : Env) (url text tp : String)
    (hne : url ≠ "") (hnp : pyStartsWith url "https://github.com/" = false) :
    fetch_github_code env.get url = ("Invalid GitHub URL.", []) ∧
    code_to_analyze env.get none url text = ("Invalid GitHub URL.", []) ∧
    render_page env none url text tp = render_page env (some "Invalid GitHub URL.") "" "" tp := by
  have hfetch : fetch_github_code env.get url = ("Invalid GitHub URL.", []) := by
    simp [fetch_github_code, hnp]
  have hres : code_to_analyze env.get none url text = ("Invalid GitHub URL.", []) := by
    simp [code_to_analyze, hne, hfetch]
  refine ⟨hfetch, hres, ?_⟩
  have hL : (code_to_analyze env.get none url text).1 = "Invalid GitHub URL." := by rw [hres]
  have hR : (code_to_analyze env.get (some "Invalid GitHub URL.") "" "").1 = "Invalid GitHub URL." := rfl
  simp only [render_page, hL, hR]

/-- Witness for C10 at a non-GitHub URL. -/
theorem c10_invalid_url_no_fetch_w :
    fetch_github_code env0.get "http://example.com/f.py" = ("Invalid GitHub URL.", []) ∧
    code_to_analyze env0.get none "http://example.com/f.py" "" = ("Invalid GitHub URL.", []) ∧
    render_page env0 none "http://example.com/f.py" "" "/tmp/a.py" =
      render_page env0 (some "Invalid GitHub URL.") "" "" "/tmp/a.py" :=
  c10_invalid_url_no_fetch env0 "http://example.com/f.py" "" "/tmp/a.py" (by decide) (by decide)
